import Mathlib

/-!
# Verification of the cylinder-slider carousel layout engine

Shallow embedding of the scroll-progress-driven carousel code of the
`cylandr-slider` repository, together with proofs checking the
natural-language specification against it.

Modelling conventions:
* JS numbers are modelled as exact rationals (`ℚ`); where trigonometry is
  required (layer positions on the ellipse) we move to `ℝ`.
* JS `undefined` values flowing into fields are modelled as `Option`
  (`none` = `undefined`); a colour written through `lerp` with an
  `undefined` factor (which yields NaN components in JS) is modelled as a
  `none` colour.
* Duck-typed layer objects (a layer "is an image layer" iff its `phase`
  field is present, "is a text layer" iff its `type` field holds the
  string `'text'`) are modelled with `Option` fields.  The `'text'` string
  tag is modelled by the one-constructor enum `LayerTag`.
* The `THREE.js` / gsap animation layer is out of scope; a tween is
  modelled by its final value (for completed transitions) or by a record
  in an explicit tween registry (for the at-most-one-tween claims).
-/

namespace Slider

/-- JS `Math.trunc`-style truncation of division results, used to model the
JS `%` operator (which truncates toward zero). -/
def jsTrunc (q : ℚ) : ℤ :=
  if q < 0 then -Rat.floor (-q) else Rat.floor q

/-- The JS remainder operator `x % y`: `x - y * trunc (x / y)`. -/
def jsMod (x y : ℚ) : ℚ :=
  x - y * (jsTrunc (x / y) : ℚ)

/-- `easeInOutCubic` from the sliders (identical in `CylandrSlider.vue` and
the wheel-snap variant):
`t < 0.5 ? 4 * t * t * t : 1 - Math.pow(-2 * t + 2, 3) / 2`. -/
def easeInOutCubic (t : ℚ) : ℚ :=
  if t < 1/2 then 4 * t * t * t else 1 - ((-2 * t + 2) ^ 3) / 2

/-- The text-colour factor computation at the top of
`updateLayersForProgress` (identical in all slider variants):
`t = Math.min(2.999999, progress * 3)`, `segmentIndex = Math.floor(t)`,
`a = t - segmentIndex`, then the `textColorFactors` array updates. -/
def textColorFactors (progress : ℚ) : List ℚ :=
  let t := min (2999999/1000000 : ℚ) (progress * 3)
  let segmentIndex : ℤ := Rat.floor t
  let a : ℚ := t - (segmentIndex : ℚ)
  let f0 : List ℚ := [0, 0, 0]
  let f1 : List ℚ :=
    if 0 ≤ segmentIndex ∧ segmentIndex < 3 then
      let fa := f0.set segmentIndex.toNat (1 - a)
      if segmentIndex + 1 < 3 then fa.set (segmentIndex + 1).toNat a else fa
    else f0
  if segmentIndex = 2 then f1.set 2 1 else f1

/-- The per-segment global easing applied to `progress` when image layers
exist (`CylandrSlider.vue` lines 143-160, identically in the wheel-snap
variant): divide `[0,1]` into one segment per image, ease the local
fractional position with `easeInOutCubic` and reassemble.  When
`imageCount = 0` the progress is returned unchanged. -/
def easedProgressFor (imageCount : ℕ) (progress : ℚ) : ℚ :=
  if 0 < imageCount then
    let progressPerImage : ℚ := 1 / imageCount
    let segmentIdx : ℤ := Rat.floor (progress / progressPerImage)
    let localProgress : ℚ := jsMod progress progressPerImage / progressPerImage
    let easedLocal := easeInOutCubic localProgress
    ((segmentIdx : ℚ) + easedLocal) * progressPerImage
  else progress

/-- `THREE.Color` values, as exact rational rgb triples. -/
abbrev Color := ℚ × ℚ × ℚ

/-- `new THREE.Color('#ffffff')`. -/
def COLOR_WHITE : Color := (1, 1, 1)

/-- `new THREE.Color('#383838')`. -/
def COLOR_GRAY : Color := (56/255, 56/255, 56/255)

/-- `c1.lerp(c2, f)` of `THREE.Color` (componentwise linear
interpolation); the sliders always call it as `copy(GRAY).lerp(WHITE, f)`,
so the base colour is reset before interpolating. -/
def lerpColor (c1 c2 : Color) (f : ℚ) : Color :=
  (c1.1 + (c2.1 - c1.1) * f,
   c1.2.1 + (c2.2.1 - c1.2.1) * f,
   c1.2.2 + (c2.2.2 - c1.2.2) * f)

/-- The duck-typing tag: source text layers carry `type: 'text'` (modelled
as an enum to stay string-free). -/
inductive LayerTag
  | text
  deriving DecidableEq, Repr

/-- The crossfade schedule exactly as the specification words it:
`factor[segment] = 1-blend`, `factor[segment+1] = blend` if
`segment+1 < 3`, and `factor[2] = 1` when `segment == 2` (clamped terminal
state, which overrides the first clause there), every other entry `0`.
Used only to compare `textColorFactors` against the spec. -/
def textColorFactorsSpec (progress : ℚ) : List ℚ :=
  let t := min (2999999/1000000 : ℚ) (progress * 3)
  let segment : ℤ := ⌊t⌋
  let blend : ℚ := t - (segment : ℚ)
  if segment = 0 then [1 - blend, blend, 0]
  else if segment = 1 then [0, 1 - blend, blend]
  else [0, 0, 1]

end Slider

namespace CylandrSlider

open Slider

/-- A layer of the combined `textCylinders` list of `CylandrSlider.vue`
(text layers from `createTextCylinders`, image layers from
`createImageCylinders` pushed onto the same list).  A JS field that a
constructor did not set is `none`:
* `offsetX` is `texture.offset.x` (`none` after a write of `undefined`),
* `color` is `material.color` (`none` models NaN components),
* `phase` is present exactly on image layers,
* `type`/`index` are the duck-typing fields the text branch of
  `updateLayersForProgress` probes. -/
structure Layer where
  offsetX : Option ℚ
  color : Option Color
  speed : ℚ
  phase : Option ℚ
  type : Option LayerTag
  index : Option ℕ
  deriving DecidableEq, Repr

/-- `const scrollDirection = 1` in `CylandrSlider.vue`. -/
def scrollDirection : ℚ := 1

/-- The per-line speeds `[0.1, 0.07, 0.086]` of `useTextCylinders.js`. -/
def textSpeeds : List ℚ := [1/10, 7/100, 86/1000]

/-- `createTextCylinders` (useTextCylinders.js) pushes
`{ mesh, texture, speed: speeds[idx] }` for each of the three lines: no
`type`, `index` or `phase` field is ever set.  The texture offset starts
at `0` and the material colour at the `MeshBasicMaterial` default white. -/
def createTextCylinders : List Layer :=
  textSpeeds.map fun s =>
    { offsetX := some 0, color := some COLOR_WHITE, speed := s,
      phase := none, type := none, index := none }

/-- An image layer as produced by `useImageCylinders.js` for
`CylandrSlider.vue`: `{ mesh, texture, speed: 0.28, phase: idx/N,
yOffset, isPlane: true }`; again no `type`/`index` field. -/
def mkImageLayer (phase : ℚ) : Layer :=
  { offsetX := some 0, color := some COLOR_WHITE, speed := 7/25,
    phase := some phase, type := none, index := none }

/-- The per-layer body of the `textCylinders.forEach` in
`updateLayersForProgress` of `CylandrSlider.vue` (lines 165-180),
direct-update path: image layers (`phase` present) get
`targetX = (startPhaseOffset + phase - easedProgress) * scrollDirection`;
layers with `type === 'text'` get the colour crossfade and
`targetX = easedProgress * scrollDirection * speed`; in both cases and
also when neither branch matches, the direct write
`layer.texture.offset.x = targetX` is executed unconditionally, so a
layer matching neither branch is assigned the still-`undefined`
`targetX`. -/
def updateLayer (factors : List ℚ) (easedProgress progressTimesDirection startPhaseOffset : ℚ)
    (layer : Layer) : Layer :=
  match layer.phase with
  | some phase =>
      { layer with offsetX := some ((startPhaseOffset + phase - easedProgress) * scrollDirection) }
  | none =>
      if layer.type = some LayerTag.text then
        let factor := layer.index.bind fun i => factors.get? i
        { layer with
          color := factor.map (lerpColor COLOR_GRAY COLOR_WHITE),
          offsetX := some (progressTimesDirection * layer.speed) }
      else
        { layer with offsetX := none }

/-- `updateLayersForProgress(progress, startPhaseOffset, true)` of
`CylandrSlider.vue` (lines 126-197), the `useDirectUpdate = true` path
(the animated path starts a tween toward the same `targetX` instead of
writing it). -/
def updateLayersForProgress (progress startPhaseOffset : ℚ) (layers : List Layer) : List Layer :=
  let factors := textColorFactors progress
  let imageCount := (layers.filter (fun l => l.phase.isSome)).length
  let easedProgress := easedProgressFor imageCount progress
  let progressTimesDirection := easedProgress * scrollDirection
  layers.map (updateLayer factors easedProgress progressTimesDirection startPhaseOffset)

end CylandrSlider

namespace ImageCylinders

/-- A decoded image as far as the layer builder consumes it: its pixel
width and height. -/
structure ImgData where
  width : ℚ
  height : ℚ
  deriving DecidableEq, Repr

/-- A layer object built by `createImageCylinders` in
`useImageCylinders.js`: `{ mesh, texture, speed, phase: idx / imgs.length,
yOffset, isPlane: true }`, together with the texture and plane dimensions
computed for its mesh. -/
structure ImgLayer where
  texW : ℚ
  texH : ℚ
  planeWidth : ℚ
  planeHeight : ℚ
  speed : ℚ
  phase : ℚ
  yOffset : ℚ
  isPlane : Bool
  deriving DecidableEq, Repr

/-- `Promise.all`: resolves with the list of all results only when every
member promise resolved; rejects (`none`) when any member rejected. -/
def promiseAll {α : Type} : List (Option α) → Option (List α)
  | [] => some []
  | none :: _ => none
  | some a :: rest => (promiseAll rest).map (a :: ·)

/-- The body of the `imgs.forEach((img, idx) => ...)` of
`createImageCylinders` (useImageCylinders.js lines 45-94): bounded
texture size preserving aspect ratio, fixed plane width 380 with height
from the aspect ratio, alternating vertical offset `±0.12·innerHeight`,
`speed = 0.28`, `phase = idx / total`. -/
def mkLayer (innerHeight : ℚ) (total : ℕ) (idx : ℕ) (img : ImgData) : ImgLayer :=
  let maxTexWidth : ℚ := 1024
  let maxTexHeight : ℚ := 1024
  let scale := min (maxTexWidth / img.width) (min (maxTexHeight / img.height) 1)
  let texW : ℚ := max 2 ((Rat.floor (img.width * scale) : ℤ) : ℚ)
  let texH : ℚ := max 2 ((Rat.floor (img.height * scale) : ℤ) : ℚ)
  let baseWidth : ℚ := 380
  let aspect := if 0 < texH then texW / texH else 1
  let planeWidth := baseWidth
  let planeHeight : ℚ := max 50 ((Rat.floor (planeWidth / max (1/100) aspect) : ℤ) : ℚ)
  let yOffset := if idx % 2 = 0 then -(innerHeight * (12/100)) else innerHeight * (12/100)
  { texW := texW, texH := texH, planeWidth := planeWidth, planeHeight := planeHeight,
    speed := 7/25, phase := (idx : ℚ) / (total : ℚ), yOffset := yOffset, isPlane := true }

/-- The `imgs.forEach` loop, carrying the running index. -/
def buildLayers (innerHeight : ℚ) (total : ℕ) : List ImgData → ℕ → List ImgLayer
  | [], _ => []
  | img :: rest, idx => mkLayer innerHeight total idx img :: buildLayers innerHeight total rest (idx + 1)

/-- `createImageCylinders` (useImageCylinders.js lines 28-102): awaits
`Promise.all` over the six image loads — `loads` records, per path,
whether the load resolved (`some img`) or rejected (`none`) — builds one
layer per image on success, and returns `[]` from the `catch` handler if
the joined promise rejected. -/
def createImageCylinders (innerHeight : ℚ) (loads : List (Option ImgData)) : List ImgLayer :=
  match promiseAll loads with
  | none => []
  | some imgs => buildLayers innerHeight imgs.length imgs 0

end ImageCylinders

namespace Slider

/-- The shape of a `THREE` geometry object, as far as resize handling is
concerned. -/
inductive GeomKind
  | cylinder (radius height : ℚ)
  | plane (width height : ℚ)
  deriving DecidableEq, Repr

/-- A geometry object; the `id` models JS object identity (each
`new THREE.*Geometry(...)` allocates a fresh one). -/
structure Geom where
  id : ℕ
  kind : GeomKind
  deriving DecidableEq, Repr

/-- Geometries disposed and created by one resize pass. -/
structure ResizeEffect where
  disposed : List Geom
  created : List Geom
  deriving DecidableEq, Repr

end Slider

namespace CylandrSlider

/-- The state touched by `onWindowResize` in `CylandrSlider.vue`:
the recorded `lastWindowSize`, the module-level `sharedGeometry`, and
the `mesh.geometry` of every layer in `textCylinders` in list order
(the first three are the text cylinders, any following are the image
planes pushed by `createImageCylinders`). -/
structure ResizeState where
  lastWidth : ℚ
  lastHeight : ℚ
  sharedGeometry : Slider.Geom
  meshGeoms : List Slider.Geom
  nextGeomId : ℕ
  deriving DecidableEq, Repr

/-- The debounced body of `onWindowResize` in `CylandrSlider.vue`
(lines 248-283): if the size is unchanged, return early with no effect;
otherwise build one new shared cylinder geometry, dispose the old shared
geometry, and run `textCylinders.forEach(({ mesh }) => {
mesh.geometry.dispose(); mesh.geometry = sharedGeometry; ... })` — over
every layer of the combined list, image planes included. -/
def onResizeBody (currentWidth currentHeight : ℚ) (st : ResizeState) :
    ResizeState × Slider.ResizeEffect :=
  if currentWidth = st.lastWidth ∧ currentHeight = st.lastHeight then
    (st, { disposed := [], created := [] })
  else
    let newGeometry : Slider.Geom :=
      { id := st.nextGeomId, kind := Slider.GeomKind.cylinder 665 currentHeight }
    ({ lastWidth := currentWidth, lastHeight := currentHeight,
       sharedGeometry := newGeometry,
       meshGeoms := st.meshGeoms.map fun _ => newGeometry,
       nextGeomId := st.nextGeomId + 1 },
     { disposed := st.sharedGeometry :: st.meshGeoms, created := [newGeometry] })

end CylandrSlider

namespace SnapSlider

/-- The resize state of the wheel-snap variant (unnamed part_003):
per layer its `type` field and its `mesh.geometry`. -/
structure ResizeState where
  lastWidth : ℚ
  lastHeight : ℚ
  sharedGeometry : Slider.Geom
  layers : List (Option Slider.LayerTag × Slider.Geom)
  nextGeomId : ℕ
  deriving DecidableEq, Repr

/-- The debounced body of `onWindowResize` in the wheel-snap variant
(part_003 lines 384-421): identical cache check and shared-geometry
rebuild, but the reassignment loop guards on `layer.type === 'text'`,
disposing and replacing only the geometry of layers carrying that tag. -/
def onResizeBody (currentWidth currentHeight : ℚ) (st : ResizeState) :
    ResizeState × Slider.ResizeEffect :=
  if currentWidth = st.lastWidth ∧ currentHeight = st.lastHeight then
    (st, { disposed := [], created := [] })
  else
    let newGeometry : Slider.Geom :=
      { id := st.nextGeomId, kind := Slider.GeomKind.cylinder 665 currentHeight }
    ({ lastWidth := currentWidth, lastHeight := currentHeight,
       sharedGeometry := newGeometry,
       layers := st.layers.map fun l =>
         if l.1 = some Slider.LayerTag.text then (l.1, newGeometry) else l,
       nextGeomId := st.nextGeomId + 1 },
     { disposed := st.sharedGeometry ::
         ((st.layers.filter fun l => l.1 = some Slider.LayerTag.text).map fun l => l.2),
       created := [newGeometry] })

end SnapSlider

namespace CylandrSlider

/-- A concrete resize state for evaluation: window recorded as 800x600,
three text meshes holding the shared cylinder geometry (id 0), one image
plane mesh holding its own plane geometry (id 1). -/
def resizeStateExample : ResizeState :=
  { lastWidth := 800, lastHeight := 600,
    sharedGeometry := { id := 0, kind := Slider.GeomKind.cylinder 665 600 },
    meshGeoms :=
      [{ id := 0, kind := Slider.GeomKind.cylinder 665 600 },
       { id := 0, kind := Slider.GeomKind.cylinder 665 600 },
       { id := 0, kind := Slider.GeomKind.cylinder 665 600 },
       { id := 1, kind := Slider.GeomKind.plane 380 285 }],
    nextGeomId := 2 }

end CylandrSlider

namespace SnapSlider

/-- The same concrete scene for the wheel-snap variant: none of the four
layers carries the `type: 'text'` tag (the composable never sets it). -/
def resizeStateExample : ResizeState :=
  { lastWidth := 800, lastHeight := 600,
    sharedGeometry := { id := 0, kind := Slider.GeomKind.cylinder 665 600 },
    layers :=
      [(none, { id := 0, kind := Slider.GeomKind.cylinder 665 600 }),
       (none, { id := 0, kind := Slider.GeomKind.cylinder 665 600 }),
       (none, { id := 0, kind := Slider.GeomKind.cylinder 665 600 }),
       (none, { id := 1, kind := Slider.GeomKind.plane 380 285 })],
    nextGeomId := 2 }

end SnapSlider

namespace SnapSlider

/-- A layer of the combined `textCylinders` list of the wheel-snap
variant (part_003).  Angles are carried in *turns*: a stored value `q`
represents the source's `q * 2π` radians — every angle the source ever
stores is such a rational multiple of `2π` (initial `angleOffset =
(idx/N)*2π`, `targetAngle = (...)*2π`, `angleStep = 2π/N`), so this
representation is exact and keeps the state computable.  The mesh
position is derived from the angle (see the ellipse-position functions
below) and is not duplicated in the state. -/
structure Layer where
  angle : ℚ
  offsetX : ℚ
  color : Option Slider.Color
  speed : ℚ
  phase : Option ℚ
  type : Option Slider.LayerTag
  index : Option ℕ
  deriving DecidableEq, Repr

/-- `const scrollDirection = 1` in part_003. -/
def scrollDirection : ℚ := 1

/-- An image layer as produced for part_003 by the plane variant of
`createImageCylinders` (second half of the useTextCylinders.js source
file): `{ mesh, speed: 0.28, phase: idx/N, cylinderRadius,
ellipseScaleX, angle: (idx/N)*2π }`; in turns the initial angle is
`idx/N`.  No `type`/`index` field. -/
def mkImageLayer (total idx : ℕ) : Layer :=
  { angle := (idx : ℚ) / (total : ℚ), offsetX := 0, color := some Slider.COLOR_WHITE,
    speed := 7/25, phase := some ((idx : ℚ) / (total : ℚ)), type := none, index := none }

/-- The per-layer body of `updateLayersForProgress` in part_003
(lines 160-220), direct path, with the `updateImages` flag: image layers
are skipped entirely when `updateImages` is false, otherwise their angle
becomes `(startPhaseOffset + phase - easedProgress) * scrollDirection`
(in turns; the source multiplies by `2π` and also repositions the mesh
from it); `type === 'text'` layers get the colour crossfade and
`targetX = easedProgress * scrollDirection * speed`; a layer matching
neither branch is untouched (unlike `CylandrSlider.vue`, part_003 has no
unconditional write). -/
def updateLayer (factors : List ℚ) (easedProgress startPhaseOffset : ℚ)
    (updateImages : Bool) (layer : Layer) : Layer :=
  match layer.phase with
  | some phase =>
      if updateImages then
        { layer with angle := (startPhaseOffset + phase - easedProgress) * scrollDirection }
      else layer
  | none =>
      if layer.type = some Slider.LayerTag.text then
        let factor := layer.index.bind fun i => factors.get? i
        { layer with
          color := factor.map (Slider.lerpColor Slider.COLOR_GRAY Slider.COLOR_WHITE),
          offsetX := easedProgress * scrollDirection * layer.speed }
      else layer

/-- `updateLayersForProgress(progress, startPhaseOffset, true,
updateImages)` of part_003 (lines 119-221), direct path. -/
def updateLayersForProgress (progress startPhaseOffset : ℚ) (updateImages : Bool)
    (layers : List Layer) : List Layer :=
  let factors := Slider.textColorFactors progress
  let imageCount := (layers.filter fun l => l.phase.isSome).length
  let easedProgress := Slider.easedProgressFor imageCount progress
  layers.map (updateLayer factors easedProgress startPhaseOffset updateImages)

/-- `normalizeAngle` of part_003 (lines 264-269), in turns: the source's
`a % (2π)` then shift into `(-π, π]` becomes `a % 1` shifted into
`(-1/2, 1/2]`; the JS `%` keeps the dividend's sign, modelled by
`Slider.jsMod`. -/
def normalizeTurns (a : ℚ) : ℚ :=
  let x := Slider.jsMod a 1
  let x1 := if x > 1/2 then x - 1 else x
  if x1 < -(1/2) then x1 + 1 else x1

/-- `findCurrentIndex` of part_003 (lines 279-290): the index (within
the image-layer list) of the layer whose normalized angle is closest to
0; `minAbs` starts at `Infinity` (modelled `none`) and `idx` at 0, and a
later layer wins only on a strictly smaller distance. -/
def findCurrentIndexAux : List Layer → ℕ → Option ℚ → ℕ → ℕ
  | [], _, _, idx => idx
  | l :: rest, i, minAbs, idx =>
    let d := |normalizeTurns l.angle|
    match minAbs with
    | none => findCurrentIndexAux rest (i + 1) (some d) i
    | some m =>
        if d < m then findCurrentIndexAux rest (i + 1) (some d) i
        else findCurrentIndexAux rest (i + 1) (some m) idx

/-- `findCurrentIndex` entry point. -/
def findCurrentIndex (layers : List Layer) : ℕ :=
  findCurrentIndexAux layers 0 none 0

/-- The state the wheel handler closes over: the `isTransitioning` flag
and the combined layer list (the image layers are its `phase`-bearing
members, as in the source's `imageLayers = textCylinders.filter(...)`). -/
structure SnapState where
  isTransitioning : Bool
  layers : List Layer
  deriving DecidableEq, Repr

/-- `(prevIndex + direction + imageLayers.length) % imageLayers.length`
of part_003 line 297 (JS `%` truncates, `Int.tmod`). -/
def targetIndexOf (st : SnapState) (direction : ℤ) : ℕ :=
  let imageLayers := st.layers.filter fun l => l.phase.isSome
  (Int.tmod ((findCurrentIndex imageLayers : ℤ) + direction + imageLayers.length)
    imageLayers.length).toNat

/-- `performTransition(direction)` of part_003 (lines 292-355), modelled
at its completion point: every tween runs to its final value.  Gated by
`if (isTransitioning || imageLayers.length === 0) return`.  Otherwise
each image layer's stored angle is tweened to
`finalAngle = angle - direction * angleStep` with
`angleStep = 2π / max(1, imageCount)` (in turns `1 / max(1, N)`), and
when the last tween completes the flag is cleared and
`updateLayersForProgress(targetIndex / max(1, imageCount),
1 / max(1, imageCount), true, false)` is applied.  The second component
counts the tweens started (0 when gated). -/
def performTransition (st : SnapState) (direction : ℤ) : SnapState × ℕ :=
  let imageLayers := st.layers.filter fun l => l.phase.isSome
  if st.isTransitioning ∨ imageLayers.length = 0 then (st, 0)
  else
    let imageCount := imageLayers.length
    let angleStep : ℚ := 1 / ((max 1 imageCount : ℕ) : ℚ)
    let targetIndex := targetIndexOf st direction
    let shifted := st.layers.map fun l =>
      if l.phase.isSome then { l with angle := l.angle - (direction : ℚ) * angleStep } else l
    let progressForText : ℚ := (targetIndex : ℚ) / ((max 1 imageCount : ℕ) : ℚ)
    let afterText := updateLayersForProgress progressForText
      (1 / ((max 1 imageCount : ℕ) : ℚ)) false shifted
    ({ isTransitioning := false, layers := afterText }, imageLayers.length)

/-- A concrete snap scene for witnesses: one untyped text layer and two
image layers at angles 0 and 1/2 turns. -/
def snapStateExample : SnapState :=
  { isTransitioning := false,
    layers :=
      [{ angle := 0, offsetX := 0, color := some Slider.COLOR_WHITE, speed := 1/10,
         phase := none, type := none, index := none },
       mkImageLayer 2 0, mkImageLayer 2 1] }

/-- The same scene with a transition already in flight. -/
def snapStateBusy : SnapState :=
  { snapStateExample with isTransitioning := true }

end SnapSlider

namespace PlaneSlider

/-- The animated properties part_001's `updateLayersForProgress` touches:
`mesh.position` (tracked per layer in `activeTweens`), `mesh.rotation.y`
(started with a bare `gsap.to`, never tracked), and `texture.offset.x`
for text layers (tracked). -/
inductive TProp
  | position
  | rotationY
  | offsetX
  deriving DecidableEq, Repr

/-- One in-flight gsap tween: its identity, the layer index it animates
and the property it targets. -/
structure TweenRec where
  id : ℕ
  layerIdx : ℕ
  prop : TProp
  deriving DecidableEq, Repr

/-- The tween bookkeeping of part_001: `live` is the set of tweens
started and neither completed nor killed (completion is not modelled —
the claims concern bursts of updates faster than tween durations), and
`activeTweens` is the `Map` from layer index to the last *tracked* tween.
`nextId` supplies fresh identities. -/
structure TweenSys where
  live : List TweenRec
  activeTweens : List (ℕ × ℕ)
  nextId : ℕ
  deriving DecidableEq, Repr

/-- JS `Map.prototype.set`: replace any entry for `k`. -/
def mapSet (m : List (ℕ × ℕ)) (k v : ℕ) : List (ℕ × ℕ) :=
  (k, v) :: m.filter fun p => p.1 ≠ k

/-- The fields of a part_001 layer that decide which tweens start. -/
structure Layer where
  phase : Option ℚ
  type : Option Slider.LayerTag
  deriving DecidableEq, Repr

/-- `const existingTween = activeTweens.get(idx);
if (existingTween) existingTween.kill()` — the map entry is not removed
(the code overwrites it right after). -/
def killTracked (sys : TweenSys) (idx : ℕ) : TweenSys :=
  match List.lookup idx sys.activeTweens with
  | none => sys
  | some tid => { sys with live := sys.live.filter fun t => t.id ≠ tid }

/-- `const tween = gsap.to(...); activeTweens.set(idx, tween)`. -/
def startTracked (sys : TweenSys) (idx : ℕ) (p : TProp) : TweenSys :=
  { live := sys.live ++ [{ id := sys.nextId, layerIdx := idx, prop := p }],
    activeTweens := mapSet sys.activeTweens idx sys.nextId,
    nextId := sys.nextId + 1 }

/-- A bare `gsap.to(...)` whose handle is dropped (part_001's rotation
tween, lines 186-190): started, never recorded, never killed by later
updates. -/
def startUntracked (sys : TweenSys) (idx : ℕ) (p : TProp) : TweenSys :=
  { sys with
    live := sys.live ++ [{ id := sys.nextId, layerIdx := idx, prop := p }],
    nextId := sys.nextId + 1 }

/-- The tween side effects of one iteration of the `forEach` in
part_001's `updateLayersForProgress`, animated path (lines 156-215):
an image layer kills the tracked tween for its index, starts a tracked
position tween, then starts an *untracked* rotation tween; a
`type === 'text'` layer kills the tracked tween and starts a tracked
offset tween; any other layer starts nothing. -/
def processLayer (l : Layer) (idx : ℕ) (sys : TweenSys) : TweenSys :=
  match l.phase with
  | some _ =>
      startUntracked (startTracked (killTracked sys idx) idx TProp.position) idx
        TProp.rotationY
  | none =>
      if l.type = some Slider.LayerTag.text then
        startTracked (killTracked sys idx) idx TProp.offsetX
      else sys

/-- The `forEach` over the combined list, carrying the running index. -/
def updateAnimatedAux : List Layer → ℕ → TweenSys → TweenSys
  | [], _, sys => sys
  | l :: rest, idx, sys => updateAnimatedAux rest (idx + 1) (processLayer l idx sys)

/-- All tween side effects of one animated (`useDirectUpdate = false`)
call of part_001's `updateLayersForProgress`. -/
def updateLayersAnimated (layers : List Layer) (sys : TweenSys) : TweenSys :=
  updateAnimatedAux layers 0 sys

/-- The tween system before any interaction. -/
def emptySys : TweenSys := { live := [], activeTweens := [], nextId := 0 }

/-- A single image layer (the phase value itself is irrelevant here). -/
def planeLayerExample : Layer := { phase := some 0, type := none }

/-- The well-formedness invariant the tracked tweens maintain: live
tween ids are distinct and below `nextId`, and every live tween on a
property other than `rotation.y` is the one its layer's `activeTweens`
entry records. -/
structure WF (sys : TweenSys) : Prop where
  nodupIds : (sys.live.map fun t => t.id).Nodup
  freshIds : ∀ t ∈ sys.live, t.id < sys.nextId
  trackedConsistent : ∀ t ∈ sys.live, t.prop ≠ TProp.rotationY →
    List.lookup t.layerIdx sys.activeTweens = some t.id

end PlaneSlider

namespace Slider

/-- Modelled from the spec (section 3 invariant): "position =
(sin(angle)·R·ellipseScaleX, yOffset, -cos(angle)·R)".  Used only to
compare the variants' position code against the spec's formula. -/
noncomputable def ellipsePos (R ellipseScaleX yOffset angle : ℝ) : ℝ × ℝ × ℝ :=
  (Real.sin angle * R * ellipseScaleX, yOffset, -Real.cos angle * R)

end Slider

namespace SnapSlider

/-- `targetAngle = (startPhaseOffset + layer.phase - easedProgress) *
scrollDirection * Math.PI * 2` (part_003 lines 166-167). -/
noncomputable def imageTargetAngle (startPhaseOffset phase easedProgress : ℝ) : ℝ :=
  (startPhaseOffset + phase - easedProgress) * ((scrollDirection : ℚ) : ℝ) * (Real.pi * 2)

/-- The position part_003 writes for an image layer (lines 168-174):
`targetX = sin(targetAngle) * cylinderRadius * ellipseScaleX`,
`targetZ = -cos(targetAngle) * cylinderRadius`, `y` untouched; the mesh
is then oriented by `lookAt(0, position.y, 0)`. -/
noncomputable def imageTargetPos (cylinderRadius ellipseScaleX posY : ℝ)
    (startPhaseOffset phase easedProgress : ℝ) : ℝ × ℝ × ℝ :=
  let targetAngle := imageTargetAngle startPhaseOffset phase easedProgress
  let targetX := Real.sin targetAngle * cylinderRadius * ellipseScaleX
  let targetZ := -Real.cos targetAngle * cylinderRadius
  (targetX, posY, targetZ)

/-- `updateMeshForLayer` of the snap transition (part_003 lines 271-277):
position recomputed from the stored angle; the state stores the angle in
turns, the source value is `angleTurns * 2π` radians. -/
noncomputable def updateMeshPos (cylinderRadius ellipseScaleX posY : ℝ)
    (angleTurns : ℚ) : ℝ × ℝ × ℝ :=
  let a := (angleTurns : ℝ) * (Real.pi * 2)
  (Real.sin a * cylinderRadius * ellipseScaleX, posY, -Real.cos a * cylinderRadius)

end SnapSlider

namespace PlaneSlider

/-- `const scrollDirection = -1` in part_001. -/
def scrollDirection : ℚ := -1

/-- The position part_001 writes for an image plane
(lines 151-169): `radiusX = CYLINDER_RADIUS * ellipseScaleX (= 665·1.5)`,
`radiusZ = CYLINDER_RADIUS (= 665)`,
`s = (startPhaseOffset + phase - progress) * scrollDirection`,
`theta = s * 2π`, position `(radiusX·cos θ, yOffset, radiusZ·sin θ)`
— note `cos` on x and `sin` on z, and the raw (un-eased) progress. -/
noncomputable def imagePos (startPhaseOffset phase progress yOffset : ℝ) : ℝ × ℝ × ℝ :=
  let radiusZ : ℝ := 665
  let radiusX : ℝ := 665 * (3/2)
  let s := (startPhaseOffset + phase - progress) * ((scrollDirection : ℚ) : ℝ)
  let theta := s * (Real.pi * 2)
  (radiusX * Real.cos theta, yOffset, radiusZ * Real.sin theta)

end PlaneSlider

namespace Slider

/-- `Rat.floor` agrees with the mathematical floor; `Rat.floor` is used in
the executable definitions (it reduces in the kernel), `Int.floor` in
proofs. -/
theorem ratFloor_eq_intFloor (q : ℚ) : Rat.floor q = ⌊q⌋ := by
  rw [Rat.floor_def', Rat.floor_def]

end Slider

namespace Slider

/-- C2. For every progress `p ∈ [0,1]`, with
`t = min(2.999999, p*3)`, `segment = ⌊t⌋`, `blend = t - segment`, the
three text colour factors computed by `updateLayersForProgress` are
`factor[segment] = 1-blend`, `factor[segment+1] = blend` when
`segment+1 < 3`, `factor[2] = 1` when `segment = 2` (the clamped terminal
state), and every other entry `0` — i.e. `textColorFactors` agrees with
the spec's schedule; in particular the factors are `[1,0,0]` at `p = 0`,
`[0,1,0]` at `p = 1/3` and `[0,0,1]` at `p = 1`. -/
theorem textColorFactors_crossfade_schedule :
    (∀ p : ℚ, 0 ≤ p → p ≤ 1 → textColorFactors p = textColorFactorsSpec p) ∧
    textColorFactors 0 = [1, 0, 0] ∧
    textColorFactors (1/3) = [0, 1, 0] ∧
    textColorFactors 1 = [0, 0, 1] := by
  refine ⟨?_, ?_, ?_, ?_⟩
  · intro p h0 _h1
    have ht0 : (0 : ℚ) ≤ min (2999999/1000000 : ℚ) (p * 3) := by
      apply le_min (by norm_num)
      linarith
    have ht3 : min (2999999/1000000 : ℚ) (p * 3) < 3 :=
      lt_of_le_of_lt (min_le_left _ _) (by norm_num)
    have hf0 : 0 ≤ ⌊min (2999999/1000000 : ℚ) (p * 3)⌋ := Int.floor_nonneg.mpr ht0
    have hf3 : ⌊min (2999999/1000000 : ℚ) (p * 3)⌋ < 3 := Int.floor_lt.mpr (by push_cast; exact ht3)
    have hcases : ⌊min (2999999/1000000 : ℚ) (p * 3)⌋ = 0 ∨
        ⌊min (2999999/1000000 : ℚ) (p * 3)⌋ = 1 ∨
        ⌊min (2999999/1000000 : ℚ) (p * 3)⌋ = 2 := by omega
    rcases hcases with h | h | h <;>
      simp only [textColorFactors, textColorFactorsSpec, ratFloor_eq_intFloor, h] <;>
      norm_num [List.set]
  · norm_num [textColorFactors, ratFloor_eq_intFloor, Int.toNat_ofNat, List.set]
  · norm_num [textColorFactors, ratFloor_eq_intFloor, Int.toNat_ofNat, List.set]
  · norm_num [textColorFactors, ratFloor_eq_intFloor, Int.toNat_ofNat, List.set]

/-- Witness for `textColorFactors_crossfade_schedule` at the concrete
progress `1/2`. -/
theorem textColorFactors_crossfade_schedule_witness :
    (0 : ℚ) ≤ 1/2 ∧ (1/2 : ℚ) ≤ 1 ∧ textColorFactors (1/2) = textColorFactorsSpec (1/2) :=
  ⟨by norm_num, by norm_num,
    textColorFactors_crossfade_schedule.1 (1/2) (by norm_num) (by norm_num)⟩

/-- C3. With `N ≥ 1` image layers, the per-segment eased progress equals
the input progress at every segment boundary `k/N`, `k = 0..N`: the
easing reassembled from `easeInOutCubic` on each of the `N` equal
segments has fixed points at all segment edges. -/
theorem easedProgress_fixed_at_segment_boundaries
    (N k : ℕ) (hN : 1 ≤ N) (_hk : k ≤ N) :
    easedProgressFor N ((k : ℚ) / N) = (k : ℚ) / N := by
  have hNQ : (0 : ℚ) < (N : ℚ) := by exact_mod_cast hN
  have hdiv : ((k : ℚ) / N) / (1 / (N : ℚ)) = (k : ℚ) := by
    field_simp
  have hfloor : Rat.floor ((k : ℚ)) = (k : ℤ) := by
    rw [ratFloor_eq_intFloor, Int.floor_natCast]
  have htrunc : jsTrunc ((k : ℚ)) = (k : ℤ) := by
    unfold jsTrunc
    rw [if_neg (not_lt.mpr (by positivity : (0:ℚ) ≤ (k:ℚ)))]
    exact hfloor
  unfold easedProgressFor
  rw [if_pos (by omega : 0 < N)]
  simp only [jsMod, hdiv, hfloor, htrunc]
  have hModZero : (k : ℚ) / N - 1 / (N : ℚ) * ((k : ℤ) : ℚ) = 0 := by
    push_cast
    ring
  rw [hModZero]
  norm_num [easeInOutCubic]
  ring

/-- Witness for `easedProgress_fixed_at_segment_boundaries` at `N = 6`,
`k = 3`. -/
theorem easedProgress_fixed_at_segment_boundaries_witness :
    1 ≤ 6 ∧ 3 ≤ 6 ∧ easedProgressFor 6 ((3 : ℚ) / 6) = (3 : ℚ) / 6 :=
  ⟨by norm_num, by norm_num,
    easedProgress_fixed_at_segment_boundaries 6 3 (by norm_num) (by norm_num)⟩

end Slider

namespace CylandrSlider

open Slider

theorem updateLayer_phase (f : List ℚ) (e ptd spo : ℚ) (l : Layer) :
    (updateLayer f e ptd spo l).phase = l.phase := by
  unfold updateLayer
  cases h : l.phase with
  | none => by_cases ht : l.type = some LayerTag.text <;> simp [h, ht]
  | some ph => simp [h]

theorem updateLayer_type (f : List ℚ) (e ptd spo : ℚ) (l : Layer) :
    (updateLayer f e ptd spo l).type = l.type := by
  unfold updateLayer
  cases h : l.phase with
  | none => by_cases ht : l.type = some LayerTag.text <;> simp [h, ht]
  | some ph => simp [h]

theorem updateLayer_index (f : List ℚ) (e ptd spo : ℚ) (l : Layer) :
    (updateLayer f e ptd spo l).index = l.index := by
  unfold updateLayer
  cases h : l.phase with
  | none => by_cases ht : l.type = some LayerTag.text <;> simp [h, ht]
  | some ph => simp [h]

theorem updateLayer_speed (f : List ℚ) (e ptd spo : ℚ) (l : Layer) :
    (updateLayer f e ptd spo l).speed = l.speed := by
  unfold updateLayer
  cases h : l.phase with
  | none => by_cases ht : l.type = some LayerTag.text <;> simp [h, ht]
  | some ph => simp [h]

/-- The direct update does not change which layers count as image layers
(the `phase` field is preserved), stated as a predicate identity so the
recomputed `imageCount` of a second call can be rewritten. -/
theorem updateLayer_phase_comp (f : List ℚ) (e ptd spo : ℚ) :
    ((fun l : Layer => l.phase.isSome) ∘ updateLayer f e ptd spo)
      = fun l : Layer => l.phase.isSome := by
  funext l
  simp [Function.comp, updateLayer_phase]

/-- Applying the per-layer direct update twice with the same parameters
equals applying it once: every written field is recomputed from inputs
that the update does not change. -/
theorem updateLayer_idem (f : List ℚ) (e ptd spo : ℚ) (l : Layer) :
    updateLayer f e ptd spo (updateLayer f e ptd spo l) = updateLayer f e ptd spo l := by
  cases h : l.phase with
  | some ph => simp [updateLayer, h]
  | none => by_cases htxt : l.type = some LayerTag.text <;> simp [updateLayer, h, htxt]

/-- C1. For every progress `p ∈ [0,1]`, calling the Direct
(`useDirectUpdate = true`) variant of `updateLayersForProgress` twice in
succession with the same `p` and `startPhaseOffset` yields exactly the
same final layer state (colours and texture offsets) as calling it once:
targets are always recomputed from the absolute progress, never
incrementally. -/
theorem applyProgress_direct_idempotent (p spo : ℚ) (layers : List CylandrSlider.Layer)
    (_h0 : 0 ≤ p) (_h1 : p ≤ 1) :
    updateLayersForProgress p spo (updateLayersForProgress p spo layers)
      = updateLayersForProgress p spo layers := by
  unfold updateLayersForProgress
  rw [List.filter_map, List.length_map, updateLayer_phase_comp, List.map_map]
  apply List.map_congr_left
  intro l _
  simp only [Function.comp_apply]
  exact updateLayer_idem _ _ _ _ l

/-- Witness for `applyProgress_direct_idempotent`: a concrete state with
the three real text layers and two image layers, at `p = 1/2`. -/
theorem applyProgress_direct_idempotent_witness :
    (0 : ℚ) ≤ 1/2 ∧ (1/2 : ℚ) ≤ 1 ∧
    updateLayersForProgress (1/2) (1/2)
        (updateLayersForProgress (1/2) (1/2)
          (createTextCylinders ++ [mkImageLayer 0, mkImageLayer (1/2)]))
      = updateLayersForProgress (1/2) (1/2)
          (createTextCylinders ++ [mkImageLayer 0, mkImageLayer (1/2)]) :=
  ⟨by norm_num, by norm_num,
    applyProgress_direct_idempotent (1/2) (1/2)
      (createTextCylinders ++ [mkImageLayer 0, mkImageLayer (1/2)])
      (by norm_num) (by norm_num)⟩

end CylandrSlider

namespace CylandrSlider

/-- C10. In the pairing of the continuous-progress component
(`CylandrSlider.vue`) with its imported text composable
(`useTextCylinders.js`), every text layer object created by
`createTextCylinders` lacks a `type` field (it holds only mesh, texture,
speed), so the `layer.type === 'text'` branch of
`updateLayersForProgress` is unreachable for those layers — their colour
is never crossfaded — and in Direct mode the unconditional write assigns
the `undefined` `targetX` to `layer.texture.offset.x` (modelled as
`offsetX = none`).  `rest` ranges over whatever image layers were pushed
after the text layers. -/
theorem text_layers_untyped_never_crossfaded
    (p spo : ℚ) (rest : List Layer) (i : ℕ) (hi : i < 3)
    (h1 : i < (createTextCylinders ++ rest).length)
    (h2 : i < (updateLayersForProgress p spo (createTextCylinders ++ rest)).length) :
    ((createTextCylinders ++ rest).get ⟨i, h1⟩).type = none ∧
    ((updateLayersForProgress p spo (createTextCylinders ++ rest)).get ⟨i, h2⟩).color
      = ((createTextCylinders ++ rest).get ⟨i, h1⟩).color ∧
    ((updateLayersForProgress p spo (createTextCylinders ++ rest)).get ⟨i, h2⟩).offsetX
      = none := by
  interval_cases i <;> exact ⟨rfl, rfl, rfl⟩

/-- Witness for `text_layers_untyped_never_crossfaded`: the first text
layer with one image layer appended, at `p = 2/3`. -/
theorem text_layers_untyped_never_crossfaded_witness :
    0 < 3 ∧
    0 < (createTextCylinders ++ [mkImageLayer 0]).length ∧
    0 < (updateLayersForProgress (2/3) (1/6) (createTextCylinders ++ [mkImageLayer 0])).length ∧
    ((createTextCylinders ++ [mkImageLayer 0]).get ⟨0, by decide⟩).type = none ∧
    ((updateLayersForProgress (2/3) (1/6) (createTextCylinders ++ [mkImageLayer 0])).get
        ⟨0, by decide⟩).color
      = ((createTextCylinders ++ [mkImageLayer 0]).get ⟨0, by decide⟩).color ∧
    ((updateLayersForProgress (2/3) (1/6) (createTextCylinders ++ [mkImageLayer 0])).get
        ⟨0, by decide⟩).offsetX = none :=
  ⟨by decide, by decide, by decide,
    text_layers_untyped_never_crossfaded (2/3) (1/6) [mkImageLayer 0] 0
      (by decide) (by decide) (by decide)⟩

end CylandrSlider

namespace ImageCylinders

theorem promiseAll_of_mem_none {α : Type} (loads : List (Option α)) (h : none ∈ loads) :
    promiseAll loads = none := by
  induction loads with
  | nil => simp at h
  | cons x rest ih =>
      cases x with
      | none => rfl
      | some a =>
          have hr : none ∈ rest := by
            rcases List.mem_cons.mp h with h0 | h0
            · exact absurd h0 (by simp)
            · exact h0
          simp [promiseAll, ih hr]

theorem promiseAll_of_all_isSome {α : Type} (loads : List (Option α))
    (h : ∀ x ∈ loads, x.isSome) :
    ∃ imgs, promiseAll loads = some imgs ∧ imgs.length = loads.length := by
  induction loads with
  | nil => exact ⟨[], rfl, rfl⟩
  | cons x rest ih =>
      cases x with
      | none => exact absurd (h none (by simp)) (by simp)
      | some a =>
          obtain ⟨imgs, hp, hl⟩ := ih fun y hy => h y (List.mem_cons_of_mem _ hy)
          exact ⟨a :: imgs, by simp [promiseAll, hp], by simp [hl]⟩

theorem buildLayers_length (innerHeight : ℚ) (total : ℕ) (imgs : List ImgData) (idx : ℕ) :
    (buildLayers innerHeight total imgs idx).length = imgs.length := by
  induction imgs generalizing idx with
  | nil => rfl
  | cons img rest ih => simp [buildLayers, ih]

theorem buildLayers_get_phase (innerHeight : ℚ) (total : ℕ) (imgs : List ImgData)
    (idx i : ℕ) (h : i < (buildLayers innerHeight total imgs idx).length) :
    ((buildLayers innerHeight total imgs idx).get ⟨i, h⟩).phase
      = ((idx + i : ℕ) : ℚ) / (total : ℚ) := by
  induction imgs generalizing idx i with
  | nil => simp [buildLayers] at h
  | cons img rest ih =>
      cases i with
      | zero => simp [buildLayers, mkLayer]
      | succ j =>
          have hj : j < (buildLayers innerHeight total rest (idx + 1)).length := by
            simpa [buildLayers] using h
          have := ih (idx + 1) j hj
          simp only [buildLayers, List.get_cons_succ]
          rw [this]
          congr 2
          omega

/-- C8 counterexample: with six load results of which exactly one
rejected, `createImageCylinders` returns the empty list — it does not
retain the five successfully loaded images, contradicting the claimed
per-image isolation. -/
theorem createImageCylinders_not_partial_counterexample :
    (createImageCylinders 800
        [some ⟨800, 600⟩, none, some ⟨800, 600⟩, some ⟨800, 600⟩,
         some ⟨800, 600⟩, some ⟨800, 600⟩]).length = 0 ∧
    (([some (⟨800, 600⟩ : ImgData), none, some ⟨800, 600⟩, some ⟨800, 600⟩,
       some ⟨800, 600⟩, some ⟨800, 600⟩].filter fun x => x.isSome).length = 5) ∧
    (0 : ℕ) ≠ 5 :=
  ⟨rfl, rfl, by decide⟩

/-- C8 amended. `createImageCylinders` is all-or-nothing, not
per-image-isolating: if any image load rejects, the `Promise.all` rejects
and the `catch` handler returns the empty layer list (so the scene does
not crash but every successfully loaded image is dropped too); only when
every load resolves does it build one layer per image, with
`phase = i / N` in order. -/
theorem createImageCylinders_all_or_nothing (innerHeight : ℚ) (loads : List (Option ImgData)) :
    (none ∈ loads → createImageCylinders innerHeight loads = []) ∧
    ((∀ x ∈ loads, x.isSome) →
      (createImageCylinders innerHeight loads).length = loads.length ∧
      ∀ (i : ℕ) (h : i < (createImageCylinders innerHeight loads).length),
        ((createImageCylinders innerHeight loads).get ⟨i, h⟩).phase
          = (i : ℚ) / (loads.length : ℚ)) := by
  constructor
  · intro h
    unfold createImageCylinders
    rw [promiseAll_of_mem_none loads h]
  · intro h
    obtain ⟨imgs, hp, hl⟩ := promiseAll_of_all_isSome loads h
    have hc : createImageCylinders innerHeight loads
        = buildLayers innerHeight imgs.length imgs 0 := by
      unfold createImageCylinders
      rw [hp]
    constructor
    · rw [hc, buildLayers_length, hl]
    · intro i
      rw [hc]
      intro hi
      rw [buildLayers_get_phase innerHeight imgs.length imgs 0 i hi]
      rw [hl]
      simp

/-- Witness for `createImageCylinders_all_or_nothing`: one input with a
rejected load (result empty) and one with all loads resolved (two layers,
one per image). -/
theorem createImageCylinders_all_or_nothing_witness :
    (none ∈ [some (⟨800, 600⟩ : ImgData), none]) ∧
    createImageCylinders 800 [some ⟨800, 600⟩, none] = [] ∧
    (∀ x ∈ [some (⟨800, 600⟩ : ImgData), some ⟨400, 400⟩], x.isSome) ∧
    (createImageCylinders 800 [some ⟨800, 600⟩, some ⟨400, 400⟩]).length
      = [some (⟨800, 600⟩ : ImgData), some ⟨400, 400⟩].length :=
  ⟨by decide,
    (createImageCylinders_all_or_nothing 800 [some ⟨800, 600⟩, none]).1 (by decide),
    by decide,
    ((createImageCylinders_all_or_nothing 800
        [some ⟨800, 600⟩, some ⟨400, 400⟩]).2 (by decide)).1⟩

end ImageCylinders

/-- C7. Evaluation of the resize handlers at a concrete scene.  The
cache-hit half of the claim holds: a debounced resize with unchanged
width/height performs no rebuild in `CylandrSlider.vue`.  The rebuild
half contradicts the claim in both cited variants: in
`CylandrSlider.vue` the reassignment loop runs over the whole combined
list, so the image plane's geometry is disposed and the image mesh ends
up holding the new shared *cylinder* geometry (not left untouched);
in the wheel-snap variant (part_003) the loop guards on
`layer.type === 'text'`, which no layer satisfies, so the new geometry
is assigned to no layer at all and the text meshes keep the
just-disposed geometry. -/
theorem resize_rebuild_targets_bug :
    CylandrSlider.onResizeBody 800 600 CylandrSlider.resizeStateExample
      = (CylandrSlider.resizeStateExample, { disposed := [], created := [] }) ∧
    (CylandrSlider.onResizeBody 800 601 CylandrSlider.resizeStateExample).1.meshGeoms
      = List.replicate 4 { id := 2, kind := Slider.GeomKind.cylinder 665 601 } ∧
    ({ id := 1, kind := Slider.GeomKind.plane 380 285 } : Slider.Geom)
      ∈ (CylandrSlider.onResizeBody 800 601 CylandrSlider.resizeStateExample).2.disposed ∧
    (SnapSlider.onResizeBody 800 601 SnapSlider.resizeStateExample).1.layers
      = SnapSlider.resizeStateExample.layers ∧
    (SnapSlider.onResizeBody 800 601 SnapSlider.resizeStateExample).2.disposed
      = [SnapSlider.resizeStateExample.sharedGeometry] :=
  ⟨by decide, by decide, by decide, by decide, by decide⟩

namespace SnapSlider

theorem snap_updateLayer_angle_no_images (f : List ℚ) (e spo : ℚ) (l : Layer) :
    (updateLayer f e spo false l).angle = l.angle := by
  unfold updateLayer
  cases h : l.phase with
  | some ph => simp
  | none => by_cases ht : l.type = some Slider.LayerTag.text <;> simp [ht]

/-- C5. In the wheel-driven snap variant, invoking `performTransition`
while `isTransitioning` is true, or when there are zero image layers, is
a no-op: the state (flag and every layer angle) is unchanged and no tween
is started — at most one transition is in flight and wheel events during
a transition are dropped, not queued. -/
theorem performTransition_gated_noop (st : SnapState) (d : ℤ)
    (h : st.isTransitioning = true ∨ (st.layers.filter fun l => l.phase.isSome) = []) :
    performTransition st d = (st, 0) := by
  have hc : st.isTransitioning = true ∨
      (st.layers.filter fun l => l.phase.isSome).length = 0 := by
    rcases h with h | h
    · exact Or.inl h
    · exact Or.inr (by rw [h]; rfl)
  simp only [performTransition]
  split
  · rfl
  · next hcond => exact absurd hc hcond

/-- Witness for `performTransition_gated_noop`: the concrete scene with a
transition already in flight. -/
theorem performTransition_gated_noop_witness :
    (snapStateBusy.isTransitioning = true ∨
      (snapStateBusy.layers.filter fun l => l.phase.isSome) = []) ∧
    performTransition snapStateBusy 1 = (snapStateBusy, 0) :=
  ⟨Or.inl rfl, performTransition_gated_noop snapStateBusy 1 (Or.inl rfl)⟩

/-- C6. A snap transition started on an idle state with `N ≥ 1` image
layers, once all per-layer tweens complete, has changed every image
layer's stored angle by exactly one fixed step — `direction * (1/N)` in
turns, i.e. `direction * 2π/N` radians, the same step for all layers —
after which `isTransitioning` is false and the Direct text-crossfade
update (`updateImages = false`) has been applied at the new centre index
`targetIndexOf st d`. -/
theorem performTransition_step_effect (st : SnapState) (d : ℤ)
    (h1 : st.isTransitioning = false)
    (h2 : (st.layers.filter fun l => l.phase.isSome) ≠ []) :
    (performTransition st d).1.isTransitioning = false ∧
    (performTransition st d).1.layers
      = updateLayersForProgress
          ((targetIndexOf st d : ℚ) / ((st.layers.filter fun l => l.phase.isSome).length : ℚ))
          (1 / ((st.layers.filter fun l => l.phase.isSome).length : ℚ)) false
          (st.layers.map fun l =>
            if l.phase.isSome then
              { l with angle := l.angle
                  - (d : ℚ) * (1 / ((st.layers.filter fun l2 => l2.phase.isSome).length : ℚ)) }
            else l) ∧
    (∀ (i : ℕ) (hi : i < st.layers.length)
        (hi2 : i < (performTransition st d).1.layers.length),
      ((st.layers.get ⟨i, hi⟩).phase.isSome) →
      ((performTransition st d).1.layers.get ⟨i, hi2⟩).angle
        = (st.layers.get ⟨i, hi⟩).angle
          - (d : ℚ) * (1 / ((st.layers.filter fun l => l.phase.isSome).length : ℚ))) ∧
    (∀ (i : ℕ) (hi : i < st.layers.length)
        (hi2 : i < (performTransition st d).1.layers.length),
      ((st.layers.get ⟨i, hi⟩).phase.isSome) →
      (((performTransition st d).1.layers.get ⟨i, hi2⟩).angle : ℝ) * (2 * Real.pi)
        = ((st.layers.get ⟨i, hi⟩).angle : ℝ) * (2 * Real.pi)
          - (d : ℝ) * (2 * Real.pi / ((st.layers.filter fun l => l.phase.isSome).length : ℝ))) := by
  have hN : 1 ≤ (st.layers.filter fun l => l.phase.isSome).length :=
    List.length_pos.mpr h2
  have hmax : (max 1 ((st.layers.filter fun l => l.phase.isSome).length))
      = (st.layers.filter fun l => l.phase.isSome).length :=
    Nat.max_eq_right hN
  have hgate : ¬(st.isTransitioning = true ∨
      (st.layers.filter fun l => l.phase.isSome).length = 0) := by
    push_neg
    exact ⟨by rw [h1]; simp, by omega⟩
  have hbody : performTransition st d
      = (⟨false,
          updateLayersForProgress
            ((targetIndexOf st d : ℚ) / ((st.layers.filter fun l => l.phase.isSome).length : ℚ))
            (1 / ((st.layers.filter fun l => l.phase.isSome).length : ℚ)) false
            (st.layers.map fun l =>
              if l.phase.isSome then
                { l with angle := l.angle
                    - (d : ℚ) *
                      (1 / ((st.layers.filter fun l2 => l2.phase.isSome).length : ℚ)) }
              else l)⟩,
        (st.layers.filter fun l => l.phase.isSome).length) := by
    simp only [performTransition]
    rw [if_neg hgate, hmax]
  have hangle : ∀ (i : ℕ) (hi : i < st.layers.length)
      (hi2 : i < (performTransition st d).1.layers.length),
      ((st.layers.get ⟨i, hi⟩).phase.isSome) →
      ((performTransition st d).1.layers.get ⟨i, hi2⟩).angle
        = (st.layers.get ⟨i, hi⟩).angle
          - (d : ℚ) * (1 / ((st.layers.filter fun l => l.phase.isSome).length : ℚ)) := by
    intro i hi
    rw [hbody]
    intro hi2 hphase
    simp only [updateLayersForProgress, List.get_eq_getElem, List.getElem_map]
    rw [snap_updateLayer_angle_no_images]
    simp only [List.get_eq_getElem] at hphase
    simp [hphase]
  refine ⟨by rw [hbody], by rw [hbody], hangle, ?_⟩
  intro i hi hi2 hphase
  have h := hangle i hi hi2 hphase
  have hcast : (((performTransition st d).1.layers.get ⟨i, hi2⟩).angle : ℝ)
      = ((st.layers.get ⟨i, hi⟩).angle : ℝ)
        - (d : ℝ) * (1 / ((st.layers.filter fun l => l.phase.isSome).length : ℝ)) := by
    rw [h]
    push_cast
    ring
  rw [hcast]
  ring

/-- Witness for `performTransition_step_effect`: the concrete idle scene
with two image layers; after the transition the first image layer
(index 1 of the combined list) has rotated by `-1 * (1/2)` turns. -/
theorem performTransition_step_effect_witness :
    snapStateExample.isTransitioning = false ∧
    (snapStateExample.layers.filter fun l => l.phase.isSome) ≠ [] ∧
    ((performTransition snapStateExample 1).1.layers.get ⟨1, by decide⟩).angle
      = (snapStateExample.layers.get ⟨1, by decide⟩).angle
        - ((1 : ℤ) : ℚ) *
          (1 / ((snapStateExample.layers.filter fun l => l.phase.isSome).length : ℚ)) :=
  ⟨rfl, by decide,
    (performTransition_step_effect snapStateExample 1 rfl (by decide)).2.2.1 1 (by decide)
      (by decide) (by decide)⟩

end SnapSlider

namespace PlaneSlider

theorem lookup_filter_ne (m : List (ℕ × ℕ)) (k j : ℕ) (h : j ≠ k) :
    List.lookup j (m.filter fun p => p.1 ≠ k) = List.lookup j m := by
  induction m with
  | nil => rfl
  | cons p rest ih =>
      by_cases hp : p.1 = k
      · rw [List.filter_cons_of_neg (by simp [hp])]
        rw [ih]
        have : (j == p.1) = false := by simp [hp, h]
        simp [List.lookup, this]
      · rw [List.filter_cons_of_pos (by simp [hp])]
        by_cases hj : j = p.1
        · simp [List.lookup, hj]
        · have hb : (j == p.1) = false := by simp [hj]
          simp only [List.lookup, hb]
          simpa using ih

theorem lookup_mapSet_self (m : List (ℕ × ℕ)) (k v : ℕ) :
    List.lookup k (mapSet m k v) = some v := by
  simp [mapSet, List.lookup]

theorem lookup_mapSet_ne (m : List (ℕ × ℕ)) (k v j : ℕ) (h : j ≠ k) :
    List.lookup j (mapSet m k v) = List.lookup j m := by
  have hb : (j == k) = false := by simp [h]
  simp only [mapSet, List.lookup, hb]
  exact lookup_filter_ne m k j h

theorem killTracked_WF (sys : TweenSys) (idx : ℕ) (h : WF sys) :
    WF (killTracked sys idx) ∧
    (killTracked sys idx).activeTweens = sys.activeTweens ∧
    (killTracked sys idx).nextId = sys.nextId ∧
    (∀ t ∈ (killTracked sys idx).live, t ∈ sys.live) ∧
    (∀ t ∈ (killTracked sys idx).live, t.prop ≠ TProp.rotationY → t.layerIdx ≠ idx) := by
  unfold killTracked
  cases hv : List.lookup idx sys.activeTweens with
  | none =>
      refine ⟨h, rfl, rfl, fun t ht => ht, ?_⟩
      intro t ht hprop hidx
      have := h.trackedConsistent t ht hprop
      rw [hidx, hv] at this
      exact Option.noConfusion this
  | some tid =>
      refine ⟨⟨?_, ?_, ?_⟩, rfl, rfl, ?_, ?_⟩
      · exact List.Nodup.sublist (List.Sublist.map _ (List.filter_sublist _)) h.nodupIds
      · intro t ht
        exact h.freshIds t (List.mem_of_mem_filter ht)
      · intro t ht hprop
        exact h.trackedConsistent t (List.mem_of_mem_filter ht) hprop
      · intro t ht
        exact List.mem_of_mem_filter ht
      · intro t ht hprop hidx
        have hmem := List.mem_of_mem_filter ht
        have hne : t.id ≠ tid := by
          have := (List.mem_filter.mp ht).2
          simpa using this
        have := h.trackedConsistent t hmem hprop
        rw [hidx, hv] at this
        exact hne (Option.some_injective _ this.symm)

theorem startTracked_WF (sys : TweenSys) (idx : ℕ) (p : TProp) (h : WF sys)
    (hclear : ∀ t ∈ sys.live, t.prop ≠ TProp.rotationY → t.layerIdx ≠ idx) :
    WF (startTracked sys idx p) := by
  refine ⟨?_, ?_, ?_⟩
  · simp only [startTracked, List.map_append, List.map_cons, List.map_nil]
    rw [List.nodup_append]
    refine ⟨h.nodupIds, List.nodup_singleton _, ?_⟩
    intro a ha hb
    have hb' : a = sys.nextId := by simpa using hb
    obtain ⟨t, ht, rfl⟩ := List.mem_map.mp ha
    have := h.freshIds t ht
    omega
  · intro t ht
    simp only [startTracked, List.mem_append, List.mem_singleton] at ht
    rcases ht with ht | rfl
    · have := h.freshIds t ht
      simp only [startTracked]
      omega
    · simp [startTracked]
  · intro t ht hprop
    simp only [startTracked, List.mem_append, List.mem_singleton] at ht
    rcases ht with ht | rfl
    · have hne : t.layerIdx ≠ idx := hclear t ht hprop
      simp only [startTracked]
      rw [lookup_mapSet_ne _ _ _ _ hne]
      exact h.trackedConsistent t ht hprop
    · simp only [startTracked]
      exact lookup_mapSet_self _ _ _

theorem startUntracked_rotY_WF (sys : TweenSys) (idx : ℕ) (h : WF sys) :
    WF (startUntracked sys idx TProp.rotationY) := by
  refine ⟨?_, ?_, ?_⟩
  · simp only [startUntracked, List.map_append, List.map_cons, List.map_nil]
    rw [List.nodup_append]
    refine ⟨h.nodupIds, List.nodup_singleton _, ?_⟩
    intro a ha hb
    have hb' : a = sys.nextId := by simpa using hb
    obtain ⟨t, ht, rfl⟩ := List.mem_map.mp ha
    have := h.freshIds t ht
    omega
  · intro t ht
    simp only [startUntracked, List.mem_append, List.mem_singleton] at ht
    rcases ht with ht | rfl
    · have := h.freshIds t ht
      simp only [startUntracked]
      omega
    · simp [startUntracked]
  · intro t ht hprop
    simp only [startUntracked, List.mem_append, List.mem_singleton] at ht
    rcases ht with ht | rfl
    · simp only [startUntracked]
      exact h.trackedConsistent t ht hprop
    · exact absurd rfl hprop

theorem processLayer_WF (l : Layer) (idx : ℕ) (sys : TweenSys) (h : WF sys) :
    WF (processLayer l idx sys) := by
  unfold processLayer
  cases hph : l.phase with
  | some ph =>
      obtain ⟨hwf, _, _, _, hclear⟩ := killTracked_WF sys idx h
      exact startUntracked_rotY_WF _ idx (startTracked_WF _ idx TProp.position hwf hclear)
  | none =>
      by_cases ht : l.type = some Slider.LayerTag.text
      · rw [if_pos ht]
        obtain ⟨hwf, _, _, _, hclear⟩ := killTracked_WF sys idx h
        exact startTracked_WF _ idx TProp.offsetX hwf hclear
      · rw [if_neg ht]
        exact h

theorem updateAnimatedAux_WF (layers : List Layer) (idx : ℕ) (sys : TweenSys) (h : WF sys) :
    WF (updateAnimatedAux layers idx sys) := by
  induction layers generalizing idx sys with
  | nil => exact h
  | cons l rest ih => exact ih (idx + 1) _ (processLayer_WF l idx sys h)

theorem nodup_const_length_le_one (L : List ℕ) (v : ℕ) (hnd : L.Nodup)
    (hall : ∀ x ∈ L, x = v) : L.length ≤ 1 := by
  match L with
  | [] => simp
  | [x] => simp
  | x :: y :: rest =>
      exfalso
      have hx := hall x (by simp)
      have hy := hall y (by simp)
      have hne : x ≠ y := by
        have := (List.nodup_cons.mp hnd).1
        intro hxy
        exact this (hxy ▸ List.mem_cons_self y rest)
      exact hne (hx.trans hy.symm)

theorem WF_tracked_bound (sys : TweenSys) (h : WF sys) (idx : ℕ) :
    ((sys.live.filter fun t => t.layerIdx = idx ∧ t.prop ≠ TProp.rotationY).length ≤ 1) := by
  cases hv : List.lookup idx sys.activeTweens with
  | none =>
      have hnil : (sys.live.filter fun t => t.layerIdx = idx ∧ t.prop ≠ TProp.rotationY) = [] := by
        rw [List.filter_eq_nil_iff]
        intro t ht hp
        have hp2 : t.layerIdx = idx ∧ t.prop ≠ TProp.rotationY := by simpa using hp
        have := h.trackedConsistent t ht hp2.2
        rw [hp2.1, hv] at this
        exact Option.noConfusion this
      rw [hnil]
      simp
  | some v =>
      set L := sys.live.filter fun t => t.layerIdx = idx ∧ t.prop ≠ TProp.rotationY with hL
      have hnd : (L.map fun t => t.id).Nodup :=
        List.Nodup.sublist (List.Sublist.map _ (List.filter_sublist _)) h.nodupIds
      have hall : ∀ x ∈ L.map fun t => t.id, x = v := by
        intro x hx
        obtain ⟨t, ht, rfl⟩ := List.mem_map.mp hx
        have hmem := List.mem_of_mem_filter ht
        have hpred := (List.mem_filter.mp ht).2
        simp only [decide_eq_true_eq] at hpred
        have := h.trackedConsistent t hmem hpred.2
        rw [hpred.1, hv] at this
        exact (Option.some_injective _ this).symm
      have := nodup_const_length_le_one _ v hnd hall
      simpa using this

/-- C9 counterexample: in part_001, two animated updates in quick
succession on a scene with one image layer leave two live tweens on the
same (layer, `rotation.y`) pair — the rotation tween is started with a
bare `gsap.to`, untracked and never killed, refuting "at most one active
tween per (layer, property) in every variant". -/
theorem overlapping_rotation_tweens_counterexample :
    ((updateLayersAnimated [planeLayerExample]
        (updateLayersAnimated [planeLayerExample] emptySys)).live.filter
      fun t => t.layerIdx = 0 ∧ t.prop = TProp.rotationY).length = 2 ∧
    ¬(((updateLayersAnimated [planeLayerExample]
        (updateLayersAnimated [planeLayerExample] emptySys)).live.filter
      fun t => t.layerIdx = 0 ∧ t.prop = TProp.rotationY).length ≤ 1) := by
  constructor <;> decide

/-- C9 amended. The cancel-then-replace discipline holds for the tweens
registered in the per-layer `activeTweens` map (texture-offset and
position tweens): any burst of animated updates keeps the tween system
well-formed and leaves at most one live tracked (non-`rotation.y`) tween
per layer index.  It does not hold for part_001's `rotation.y` tweens,
which are started untracked and uncancelled (see the counterexample). -/
theorem tracked_cancel_then_replace (layers : List Layer) (sys : TweenSys) (h : WF sys) :
    WF (updateLayersAnimated layers sys) ∧
    ∀ idx : ℕ,
      ((updateLayersAnimated layers sys).live.filter
        fun t => t.layerIdx = idx ∧ t.prop ≠ TProp.rotationY).length ≤ 1 := by
  have hwf := updateAnimatedAux_WF layers 0 sys h
  exact ⟨hwf, fun idx => WF_tracked_bound _ hwf idx⟩

/-- Witness for `tracked_cancel_then_replace`: the empty tween system is
well-formed, and one animated update of the one-image-layer scene leaves
at most one tracked tween on layer 0. -/
theorem tracked_cancel_then_replace_witness :
    WF emptySys ∧
    ((updateLayersAnimated [planeLayerExample] emptySys).live.filter
      fun t => t.layerIdx = 0 ∧ t.prop ≠ TProp.rotationY).length ≤ 1 :=
  have hwf : WF emptySys := ⟨by simp [emptySys], by simp [emptySys], by simp [emptySys]⟩
  ⟨hwf, (tracked_cancel_then_replace [planeLayerExample] emptySys hwf).2 0⟩

end PlaneSlider

/-- C4 counterexample.  In the continuous plane variant (part_001), the
image-layer position does not satisfy the claimed formula
`(sin(targetAngle)·R·ellipseScaleX, y, -cos(targetAngle)·R)` with
`targetAngle = (startPhaseOffset + phase - easedProgress) *
scrollDirection * 2π`: at `N = 6` images, `startPhaseOffset = 1/6`,
`phase = 0`, `progress = 5/12` (a fixed point of the per-segment easing,
so `easedProgress = progress` under any reading) the code places the
mesh at `(0, 0, 665)` while the claimed formula gives `(997.5, 0, 0)` —
part_001 uses `cos` on x and `sin` on z. -/
theorem variant1_position_not_ellipse_counterexample :
    Slider.easedProgressFor 6 (5/12) = 5/12 ∧
    PlaneSlider.imagePos (1/6) 0 (5/12) 0
      ≠ Slider.ellipsePos 665 (3/2) 0
          (((1:ℝ)/6 + 0 - 5/12) * ((PlaneSlider.scrollDirection : ℚ) : ℝ) * (Real.pi * 2)) := by
  constructor
  · norm_num [Slider.easedProgressFor, Slider.ratFloor_eq_intFloor, Slider.jsMod,
      Slider.jsTrunc, Slider.easeInOutCubic]
  · intro heq
    have hz := congrArg (fun t : ℝ × ℝ × ℝ => t.2.2) heq
    simp only [PlaneSlider.imagePos, Slider.ellipsePos] at hz
    have hdir : ((PlaneSlider.scrollDirection : ℚ) : ℝ) = -1 := by
      norm_num [PlaneSlider.scrollDirection]
    have hθ : ((1:ℝ)/6 + 0 - 5/12) * ((PlaneSlider.scrollDirection : ℚ) : ℝ) * (Real.pi * 2)
        = Real.pi / 2 := by
      rw [hdir]
      ring
    rw [hθ] at hz
    simp only [Real.sin_pi_div_two, Real.cos_pi_div_two] at hz
    norm_num at hz

/-- C4 amended.  The angle/position relation of the claim holds in the
wheel-snap variant (part_003): the direct image update places the mesh
exactly at the spec's ellipse point for
`targetAngle = (startPhaseOffset + phase - easedProgress) *
scrollDirection * 2π` (the mesh is then oriented by
`lookAt(0, y, 0)` toward the vertical axis at its own height — the
coordinate-system origin exactly when `y = 0`); `updateMeshForLayer`
keeps the same relation between the stored angle and the position during
snap transitions; and the stored angle of the ℚ-state model times `2π`
is exactly that `targetAngle`.  It does not hold in every variant: see
the part_001 counterexample. -/
theorem variant3_position_matches_ellipse :
    (∀ R sx y spo phase eased : ℝ,
      SnapSlider.imageTargetPos R sx y spo phase eased
        = Slider.ellipsePos R sx y (SnapSlider.imageTargetAngle spo phase eased)) ∧
    (∀ (R sx y : ℝ) (aTurns : ℚ),
      SnapSlider.updateMeshPos R sx y aTurns
        = Slider.ellipsePos R sx y ((aTurns : ℝ) * (Real.pi * 2))) ∧
    (∀ (f : List ℚ) (e spo : ℚ) (l : SnapSlider.Layer) (ph : ℚ), l.phase = some ph →
      ((SnapSlider.updateLayer f e spo true l).angle : ℝ) * (Real.pi * 2)
        = SnapSlider.imageTargetAngle (spo : ℝ) (ph : ℝ) (e : ℝ)) := by
  refine ⟨?_, ?_, ?_⟩
  · intro R sx y spo phase eased
    simp [SnapSlider.imageTargetPos, Slider.ellipsePos]
  · intro R sx y aTurns
    simp [SnapSlider.updateMeshPos, Slider.ellipsePos]
  · intro f e spo l ph hph
    unfold SnapSlider.updateLayer
    rw [hph]
    simp only [SnapSlider.imageTargetAngle, SnapSlider.scrollDirection]
    push_cast
    ring

/-- Witness for `variant3_position_matches_ellipse` at a concrete image
layer (`phase = 0/2`), `easedProgress = 1/3`, `startPhaseOffset = 1/6`. -/
theorem variant3_position_matches_ellipse_witness :
    (SnapSlider.mkImageLayer 2 0).phase = some ((0 : ℚ) / (2 : ℚ)) ∧
    ((SnapSlider.updateLayer [] (1/3) (1/6) true (SnapSlider.mkImageLayer 2 0)).angle : ℝ)
        * (Real.pi * 2)
      = SnapSlider.imageTargetAngle (((1 : ℚ)/6 : ℚ) : ℝ) (((0 : ℚ)/(2 : ℚ) : ℚ) : ℝ)
          (((1 : ℚ)/3 : ℚ) : ℝ) :=
  ⟨rfl,
    variant3_position_matches_ellipse.2.2 [] (1/3) (1/6) (SnapSlider.mkImageLayer 2 0)
      ((0 : ℚ) / (2 : ℚ)) rfl⟩
